import Mathlib

/-!
Verification of `src/archivematicaCommon/lib/elasticSearchFunctions.py`
(Archivematica Elasticsearch indexing layer).

The nested mapping/list/scalar trees produced by `xmltodict.parse` are
modelled by `JVal`; the two normalization passes
(`_normalize_dict_values` and `_rename_dict_keys_with_child_dicts`) are
translated below.
-/

/-- A nested mapping / list / scalar tree, as produced by converting an XML
document to a dict.  Mappings are ordered association lists (xmltodict uses
ordered dicts); scalars are strings (text nodes / attribute values). -/
inductive JVal where
  | s (v : String)
  | d (entries : List (String × JVal))
  | l (elems : List JVal)
deriving Repr

/-- `type(x).__name__` for the values that occur in these trees. -/
def typeName : JVal → String
  | .s _ => "str"
  | .d _ => "dict"
  | .l _ => "list"

mutual

/-- `_normalize_dict_values` (shape stabilization): recurses a dict; if a
dict's value is another dict, it encases it in a single-element list; list
values are normalized element-wise. -/
def normalizeDictValues : List (String × JVal) → List (String × JVal)
  | [] => []
  | (k, .d m) :: rest =>
      (k, .l [.d (normalizeDictValues m)]) :: normalizeDictValues rest
  | (k, .l xs) :: rest =>
      (k, .l (normalizeListDictElements xs)) :: normalizeDictValues rest
  | (k, v) :: rest => (k, v) :: normalizeDictValues rest

/-- `_normalize_list_dict_elements`: normalizes list elements that are
themselves lists or dicts. -/
def normalizeListDictElements : List JVal → List JVal
  | [] => []
  | .l xs :: rest =>
      .l (normalizeListDictElements xs) :: normalizeListDictElements rest
  | .d m :: rest => .d (normalizeDictValues m) :: normalizeListDictElements rest
  | v :: rest => v :: normalizeListDictElements rest

end

mutual

/-- `_rename_dict_keys_with_child_dicts`: renames a key to `key_data` when its
value is a dict, and to `key_<type-of-first-element>_list` when its value is a
list.  Reading the first element of an empty list raises `IndexError` in
Python, modelled by `Except.error`. -/
def renameDictKeys : List (String × JVal) → Except String (List (String × JVal))
  | [] => .ok []
  | (k, .d m) :: rest => do
      let m' ← renameDictKeys m
      let rest' ← renameDictKeys rest
      .ok ((k ++ "_data", .d m') :: rest')
  | (_, .l []) :: _ => .error "IndexError: list index out of range"
  | (k, .l (x :: xs)) :: rest => do
      let v' ← renameListElements (x :: xs)
      let rest' ← renameDictKeys rest
      .ok ((k ++ "_" ++ typeName x ++ "_list", .l v') :: rest')
  | (k, v) :: rest => do
      let rest' ← renameDictKeys rest
      .ok ((k, v) :: rest')

/-- `_rename_list_elements_if_they_are_dicts`: recurses into list elements
that are lists, and applies the key renaming to elements that are dicts. -/
def renameListElements : List JVal → Except String (List JVal)
  | [] => .ok []
  | .l xs :: rest => do
      let xs' ← renameListElements xs
      let rest' ← renameListElements rest
      .ok (.l xs' :: rest')
  | .d m :: rest => do
      let m' ← renameDictKeys m
      let rest' ← renameListElements rest
      .ok (.d m' :: rest')
  | v :: rest => do
      let rest' ← renameListElements rest
      .ok (v :: rest')

end

/-- Full normalization as applied at the indexing call sites:
`_rename_dict_keys_with_child_dicts(_normalize_dict_values(data))`. -/
def normalizeData (m : List (String × JVal)) : Except String (List (String × JVal)) :=
  renameDictKeys (normalizeDictValues m)

/-- C1 (counterexample): full normalization is not idempotent.  On the tree
`{"a": ["v"]}` one application yields `{"a_str_list": ["v"]}`, but a second
application renames the key again to `a_str_list_str_list`, so
`normalize(normalize(x)) != normalize(x)`. -/
theorem normalizeData_not_idempotent :
    normalizeData [("a", JVal.l [JVal.s "v"])]
        = Except.ok [("a_str_list", JVal.l [JVal.s "v"])] ∧
    normalizeData [("a_str_list", JVal.l [JVal.s "v"])]
        = Except.ok [("a_str_list_str_list", JVal.l [JVal.s "v"])] ∧
    [("a_str_list", JVal.l [JVal.s "v"])]
        ≠ [("a_str_list_str_list", JVal.l [JVal.s "v"])] := by
  refine ⟨?_, ?_, ?_⟩ <;>
    simp [normalizeData, normalizeDictValues, normalizeListDictElements,
      renameDictKeys, renameListElements, typeName, Bind.bind, Except.bind]

/-- Joint idempotence of the shape-stabilization pass
(`_normalize_dict_values` / `_normalize_list_dict_elements`). -/
theorem normalize_shape_idem_both :
    (∀ m, normalizeDictValues (normalizeDictValues m) = normalizeDictValues m) ∧
    (∀ xs, normalizeListDictElements (normalizeListDictElements xs)
        = normalizeListDictElements xs) := by
  apply normalizeDictValues.mutual_induct
    (fun m => normalizeDictValues (normalizeDictValues m) = normalizeDictValues m)
    (fun xs => normalizeListDictElements (normalizeListDictElements xs)
        = normalizeListDictElements xs)
  case case1 => simp [normalizeDictValues]
  case case2 =>
    intro k m rest ih1 ih2
    simp [normalizeDictValues, normalizeListDictElements, ih1, ih2]
  case case3 =>
    intro k xs rest ih1 ih2
    simp [normalizeDictValues, ih1, ih2]
  case case4 =>
    intro k v rest hd hl ih
    cases v with
    | s w => simp [normalizeDictValues, ih]
    | d m => exact absurd rfl (hd m)
    | l xs => exact absurd rfl (hl xs)
  case case5 => simp [normalizeListDictElements]
  case case6 =>
    intro xs rest ih1 ih2
    simp [normalizeListDictElements, ih1, ih2]
  case case7 =>
    intro m rest ih1 ih2
    simp [normalizeListDictElements, normalizeDictValues, ih1, ih2]
  case case8 =>
    intro v rest hl hd ih
    cases v with
    | s w => simp [normalizeListDictElements, ih]
    | d m => exact absurd rfl (hd m)
    | l xs => exact absurd rfl (hl xs)

/-- C1 (amended): the shape-stabilization pass `_normalize_dict_values` is
idempotent on every nested mapping/list/scalar tree; the full normalization
(stabilize then rename) is not, because the renaming pass suffixes keys
again on a second application. -/
theorem normalizeDictValues_idempotent (m : List (String × JVal)) :
    normalizeDictValues (normalizeDictValues m) = normalizeDictValues m :=
  normalize_shape_idem_both.1 m

/-- C10: the key-renaming pass is not total on empty lists: on the mapping
`{"a": []}` the list-type inspection reads the first element of the empty
list and fails (Python raises `IndexError`), so normalization fails rather
than producing a tagged empty-list key. -/
theorem renameDictKeys_empty_list_error :
    renameDictKeys [("a", JVal.l [])]
        = Except.error "IndexError: list index out of range" ∧
    normalizeData [("a", JVal.l [])]
        = Except.error "IndexError: list index out of range" := by
  constructor <;>
    simp [normalizeData, normalizeDictValues, normalizeListDictElements,
      renameDictKeys, Bind.bind, Except.bind]

/-! ## `_try_to_index`: the resilient write loop -/

/-- Outcome of a `_try_to_index` call.  `ok n` means the call returned after
`n` calls to `client.index`; `raised n e` means `n` attempts were made, all
failed, and the last error `e` was re-raised; `valueError` is the
`max_tries < 1` guard; `fellThrough` is the implicit `return None` after a
loop that never ran (unreachable once the guard passed). -/
inductive TryResult (E : Type) where
  | valueError
  | ok (attempts : Nat)
  | raised (attempts : Nat) (e : E)
  | fellThrough
deriving Repr, DecidableEq

/-- The `for _ in xrange(0, max_tries)` loop of `_try_to_index`.  `outcomes i`
is the result of the `i`-th `client.index` call; `i` is the next attempt
index, `r` the remaining iterations, `last` the saved exception. -/
def tryGo (outcomes : Nat → Except E Unit) (i : Nat) :
    Nat → Option E → TryResult E
  | 0, some e => .raised i e
  | 0, none => .fellThrough
  | r + 1, last =>
      match outcomes i with
      | .ok _ => .ok (i + 1)
      | .error e =>
          -- each failure is printed and followed by a sleep, then the retry
          let _ := last
          tryGo outcomes (i + 1) r (some e)

/-- `_try_to_index(client, data, index, wait_between_tries, max_tries)`:
raises `ValueError` when `max_tries < 1`, otherwise attempts the write up to
`max_tries` times, re-raising the last error after exhaustion. -/
def tryToIndex (outcomes : Nat → Except E Unit) (maxTries : Nat) : TryResult E :=
  if maxTries < 1 then .valueError else tryGo outcomes 0 maxTries none

theorem tryGo_succeeds (outcomes : Nat → Except E Unit) (errs : Nat → E) :
    ∀ (s r i : Nat) (last : Option E), s < r →
      (∀ j, j < s → outcomes (i + j) = .error (errs (i + j))) →
      outcomes (i + s) = .ok () →
      tryGo outcomes i r last = .ok (i + s + 1) := by
  intro s
  induction s with
  | zero =>
    intro r i last hr _ hok
    match r, hr with
    | r + 1, _ => simp only [tryGo]; rw [Nat.add_zero] at hok; rw [hok]
  | succ s ih =>
    intro r i last hr hfail hok
    match r, hr with
    | r + 1, hr =>
      have h0 : outcomes i = .error (errs i) := by
        have := hfail 0 (Nat.succ_pos s); simpa using this
      simp only [tryGo, h0]
      have := ih r (i + 1) (some (errs i)) (Nat.lt_of_succ_lt_succ hr)
        (fun j hj => by
          have := hfail (j + 1) (Nat.succ_lt_succ hj)
          simpa [Nat.add_assoc, Nat.add_comm 1 j] using this)
        (by
          have : i + 1 + s = i + (s + 1) := by omega
          rw [this]; exact hok)
      rw [this]
      congr 1
      omega

theorem tryGo_exhausts (outcomes : Nat → Except E Unit) (errs : Nat → E) :
    ∀ (r i : Nat) (last : Option E), 1 ≤ r →
      (∀ j, j < r → outcomes (i + j) = .error (errs (i + j))) →
      tryGo outcomes i r last = .raised (i + r) (errs (i + r - 1)) := by
  intro r
  induction r with
  | zero => intro i last h; omega
  | succ r ih =>
    intro i last _ hfail
    have h0 : outcomes i = .error (errs i) := by
      have := hfail 0 (Nat.succ_pos r); simpa using this
    simp only [tryGo, h0]
    cases Nat.eq_zero_or_pos r with
    | inl hz => subst hz; simp [tryGo]
    | inr hp =>
      have := ih (i + 1) (some (errs i)) hp
        (fun j hj => by
          have := hfail (j + 1) (Nat.succ_lt_succ hj)
          simpa [Nat.add_assoc, Nat.add_comm 1 j] using this)
      rw [this]
      have h1 : i + 1 + r = i + (r + 1) := by omega
      rw [h1]

/-- C2: with `max_tries >= 1`, if the store write fails on the first `N - 1`
attempts and succeeds on attempt `N <= max_tries`, `_try_to_index` returns
successfully having performed exactly `N` write attempts; if all `max_tries`
attempts fail, it re-raises the error of the last failed attempt. -/
theorem tryToIndex_retry_semantics (outcomes : Nat → Except E Unit)
    (errs : Nat → E) (maxTries N : Nat) :
    (1 ≤ N → N ≤ maxTries →
      (∀ i, i < N - 1 → outcomes i = .error (errs i)) →
      outcomes (N - 1) = .ok () →
      tryToIndex outcomes maxTries = .ok N) ∧
    (1 ≤ maxTries →
      (∀ i, i < maxTries → outcomes i = .error (errs i)) →
      tryToIndex outcomes maxTries = .raised maxTries (errs (maxTries - 1))) := by
  constructor
  · intro hN hNmax hfail hok
    have hguard : ¬ maxTries < 1 := by omega
    simp only [tryToIndex, hguard, if_false]
    have := tryGo_succeeds outcomes errs (N - 1) maxTries 0 none
      (by omega) (fun j hj => by simpa using hfail j hj) (by simpa using hok)
    rw [this]
    congr 1
    omega
  · intro hmax hfail
    have hguard : ¬ maxTries < 1 := by omega
    simp only [tryToIndex, hguard, if_false]
    have := tryGo_exhausts outcomes errs maxTries 0 none hmax
      (fun j hj => by simpa using hfail j hj)
    simpa using this

/-- C2 witness: concrete runs of both branches.  With failures on attempts
0 and 1 and success on attempt 2 (`N = 3`, `max_tries = 5`) the call returns
after exactly 3 attempts; with every attempt failing and `max_tries = 3` it
re-raises the error of attempt 2. -/
theorem tryToIndex_retry_semantics_witness :
    tryToIndex (fun i => if i < 2 then .error (toString i) else .ok ()) 5
      = .ok 3 ∧
    tryToIndex (fun i => (.error (toString i) : Except String Unit)) 3
      = .raised 3 "2" := by
  constructor
  · exact (tryToIndex_retry_semantics
        (fun i => if i < 2 then .error (toString i) else .ok ())
        (fun i => toString i) 5 3).1
      (by decide) (by decide) (fun i hi => by interval_cases i <;> rfl) rfl
  · exact (tryToIndex_retry_semantics
        (fun i => (.error (toString i) : Except String Unit))
        (fun i => toString i) 3 0).2
      (by decide) (fun i hi => rfl)

/-! ## Query/mutation layer: tag get/set and status-field updates -/

/-- The error taxonomy used by the tag operations
(`EmptySearchResultError`, `TooManyResultsError`, both subclasses of
`ElasticsearchError`). -/
inductive ESErr where
  | emptySearchResult (msg : String)
  | tooManyResults (msg : String)
deriving Repr, DecidableEq

/-- A document in the `transfers` index with doc type `transferfile`:
the store-assigned `_id`, the domain `fileuuid`, and the `tags` field
(`none` models a document with no `tags` field, in which case a search with
`fields='tags'` returns a hit without a `fields` key). -/
structure TransferFileDoc where
  docId : Nat
  fileuuid : String
  tags : Option (List String)
deriving Repr, DecidableEq

/-- `value.replace('/', '\\/')`: the pattern is the single character `/`,
so the replacement is characterwise. -/
def escapeSlashes (value : String) : String :=
  ⟨(value.toList.map (fun c => if c = '/' then ['\\', '/'] else [c])).flatten⟩

/-- `_document_ids_from_field_query`: term query for `field = value` (with
`/` escaped as `\/` first), returning the `_id` of every hit.  `docIdOf` and
`fieldOf` project the store-assigned id and the queried field out of a
document. -/
def document_ids_from_field_query (docs : List α) (docIdOf : α → Nat)
    (fieldOf : α → String) (value : String) : List Nat :=
  let searchvalue := escapeSlashes value
  (docs.filter (fun d => fieldOf d = searchvalue)).map docIdOf

/-- `_document_id_from_field_query`: `None` unless exactly one document
matches. -/
def document_id_from_field_query (docs : List α) (docIdOf : α → Nat)
    (fieldOf : α → String) (value : String) : Option Nat :=
  let ids := document_ids_from_field_query docs docIdOf fieldOf value
  if ids.length = 1 then ids.head? else none

/-- `get_file_tags(client, uuid)`: term search on `fileuuid`;
raises on zero or multiple matches, otherwise returns the single document's
tags (`[]` when the document has no `tags` field). -/
def get_file_tags (store : List TransferFileDoc) (uuid : String) :
    Except ESErr (List String) :=
  let hits := store.filter (fun d => d.fileuuid = uuid)
  let count := hits.length
  if count = 0 then
    .error (.emptySearchResult ("No matches found for file with UUID " ++ uuid))
  else if 1 < count then
    .error (.tooManyResults (toString count ++
      " matches found for file with UUID " ++ uuid ++
      "; unable to fetch a single result"))
  else
    match hits.head? with
    | some r => .ok (r.tags.getD [])
    | none => .ok []  -- unreachable: count = 1

/-- `set_file_tags(client, uuid, tags)`: resolves the document ids matching
`fileuuid = uuid`, raises on zero or multiple matches, otherwise issues a
bounded update replacing the `tags` field of the single match and returns
`True`. -/
def set_file_tags (store : List TransferFileDoc) (uuid : String)
    (tags : List String) : Except ESErr (Bool × List TransferFileDoc) :=
  let document_ids := document_ids_from_field_query store
    (fun d => d.docId) (fun d => d.fileuuid) uuid
  let count := document_ids.length
  if count = 0 then
    .error (.emptySearchResult ("No matches found for file with UUID " ++ uuid))
  else if 1 < count then
    .error (.tooManyResults (toString count ++
      " matches found for file with UUID " ++ uuid ++
      "; unable to fetch a single result"))
  else
    let target := document_ids.head?.getD 0
    .ok (true, store.map (fun d =>
      if d.docId = target then { d with tags := some tags } else d))

/-- A document in an index targeted by `_update_field` (`aips` or
`transfers`): the store-assigned `_id` and the domain `uuid` field queried by
`_document_id_from_field_query`. -/
structure StatusDoc where
  docId : Nat
  uuid : String
deriving Repr, DecidableEq

/-- Values written by the field-update callers (`'UPLOADED'`, `'DEL_REQ'`,
`True`). -/
inductive FieldVal where
  | str (s : String)
  | bool (b : Bool)
deriving Repr, DecidableEq

/-- One `client.update` call: the target `_id` and the partial document
`{field: status}`. -/
structure UpdateCall where
  docId : Nat
  field : String
  value : FieldVal
deriving Repr, DecidableEq

/-- `_update_field(client, uuid, index, doc_type, field, status)`: resolves a
single document id by `uuid`; when resolution fails (zero or multiple
matches) it logs an error and returns without updating; otherwise it issues
one partial-document update.  The result is the list of issued update calls
together with the error-log lines. -/
def update_field (store : List StatusDoc) (uuid index field : String)
    (v : FieldVal) : List UpdateCall × List String :=
  match document_id_from_field_query store
      (fun d => d.docId) (fun d => d.uuid) uuid with
  | none =>
      ([], ["Unable to find document with UUID " ++ uuid ++
            " in index " ++ index])
  | some document_id => ([⟨document_id, field, v⟩], [])

/-- `mark_aip_deletion_requested`. -/
def mark_aip_deletion_requested (store : List StatusDoc) (uuid : String) :=
  update_field store uuid "aips" "status" (.str "DEL_REQ")

/-- `mark_aip_stored`. -/
def mark_aip_stored (store : List StatusDoc) (uuid : String) :=
  update_field store uuid "aips" "status" (.str "UPLOADED")

/-- `mark_backlog_deletion_requested`. -/
def mark_backlog_deletion_requested (store : List StatusDoc) (uuid : String) :=
  update_field store uuid "transfers" "pending_deletion" (.bool true)

/-- C3: for a file UUID (which contains no `/`, so the query escaping is the
identity), `get_file_tags` and `set_file_tags` raise the empty-result error
on zero matches and the too-many-results error on multiple matches; with
exactly one match, `get_file_tags` returns the tag list (`[]` when the
document has no tags field) and `set_file_tags` replaces the tags of that
document and reports success. -/
theorem file_tags_lookup_cardinality (store : List TransferFileDoc)
    (uuid : String) (tags : List String)
    (hesc : escapeSlashes uuid = uuid) :
    ((store.filter (fun d => d.fileuuid = uuid)).length = 0 →
      get_file_tags store uuid = .error (.emptySearchResult
        ("No matches found for file with UUID " ++ uuid)) ∧
      set_file_tags store uuid tags = .error (.emptySearchResult
        ("No matches found for file with UUID " ++ uuid))) ∧
    (1 < (store.filter (fun d => d.fileuuid = uuid)).length →
      get_file_tags store uuid = .error (.tooManyResults
        (toString (store.filter (fun d => d.fileuuid = uuid)).length ++
         " matches found for file with UUID " ++ uuid ++
         "; unable to fetch a single result")) ∧
      set_file_tags store uuid tags = .error (.tooManyResults
        (toString (store.filter (fun d => d.fileuuid = uuid)).length ++
         " matches found for file with UUID " ++ uuid ++
         "; unable to fetch a single result"))) ∧
    (∀ r, store.filter (fun d => d.fileuuid = uuid) = [r] →
      (r.tags = none → get_file_tags store uuid = .ok []) ∧
      (∀ ts, r.tags = some ts → get_file_tags store uuid = .ok ts) ∧
      set_file_tags store uuid tags = .ok (true, store.map (fun d =>
        if d.docId = r.docId then { d with tags := some tags } else d))) := by
  refine ⟨?_, ?_, ?_⟩
  · intro h
    constructor
    · simp [get_file_tags, h]
    · simp [set_file_tags, document_ids_from_field_query, hesc, h]
  · intro h
    have h0 : (store.filter (fun d => d.fileuuid = uuid)).length ≠ 0 := by omega
    constructor
    · simp [get_file_tags, h0, h]
    · simp [set_file_tags, document_ids_from_field_query, hesc, h0, h]
  · intro r h
    refine ⟨?_, ?_, ?_⟩
    · intro ht; simp [get_file_tags, h, ht]
    · intro ts ht; simp [get_file_tags, h, ht]
    · simp [set_file_tags, document_ids_from_field_query, hesc, h]

/-- C3 witness: on a concrete store, an unknown UUID raises the empty-result
error in both operations, a duplicated UUID raises the too-many-results
error, and a uniquely matched UUID reads and writes tags. -/
theorem file_tags_lookup_cardinality_witness :
    get_file_tags
        [⟨1, "u1", none⟩, ⟨2, "u2", some ["a"]⟩, ⟨3, "u3", none⟩,
         ⟨4, "u3", none⟩] "zz"
      = .error (.emptySearchResult "No matches found for file with UUID zz") ∧
    set_file_tags
        [⟨1, "u1", none⟩, ⟨2, "u2", some ["a"]⟩, ⟨3, "u3", none⟩,
         ⟨4, "u3", none⟩] "u3" []
      = .error (.tooManyResults
          "2 matches found for file with UUID u3; unable to fetch a single result") ∧
    get_file_tags
        [⟨1, "u1", none⟩, ⟨2, "u2", some ["a"]⟩, ⟨3, "u3", none⟩,
         ⟨4, "u3", none⟩] "u2"
      = .ok ["a"] ∧
    set_file_tags
        [⟨1, "u1", none⟩, ⟨2, "u2", some ["a"]⟩, ⟨3, "u3", none⟩,
         ⟨4, "u3", none⟩] "u2" []
      = .ok (true,
          [⟨1, "u1", none⟩, ⟨2, "u2", some []⟩, ⟨3, "u3", none⟩,
           ⟨4, "u3", none⟩]) := by
  refine ⟨?_, ?_, ?_, ?_⟩
  · exact ((file_tags_lookup_cardinality
      [⟨1, "u1", none⟩, ⟨2, "u2", some ["a"]⟩, ⟨3, "u3", none⟩, ⟨4, "u3", none⟩]
      "zz" [] (by decide)).1 (by decide)).1
  · have := ((file_tags_lookup_cardinality
      [⟨1, "u1", none⟩, ⟨2, "u2", some ["a"]⟩, ⟨3, "u3", none⟩, ⟨4, "u3", none⟩]
      "u3" [] (by decide)).2.1 (by decide)).2
    simpa using this
  · exact (((file_tags_lookup_cardinality
      [⟨1, "u1", none⟩, ⟨2, "u2", some ["a"]⟩, ⟨3, "u3", none⟩, ⟨4, "u3", none⟩]
      "u2" [] (by decide)).2.2 ⟨2, "u2", some ["a"]⟩ (by decide)).2.1 ["a"] rfl)
  · have := ((file_tags_lookup_cardinality
      [⟨1, "u1", none⟩, ⟨2, "u2", some ["a"]⟩, ⟨3, "u3", none⟩, ⟨4, "u3", none⟩]
      "u2" [] (by decide)).2.2 ⟨2, "u2", some ["a"]⟩ (by decide)).2.2
    simpa using this

/-- C4 (counterexample): with two documents sharing the same UUID, the
status-update path does not apply any patch: `_document_id_from_field_query`
resolves to `None` for multiple matches, so `_update_field` logs an error and
returns with no `client.update` call issued (the claim states the patch is
still applied to a chosen document). -/
theorem update_field_two_matches_no_patch :
    update_field [⟨1, "u"⟩, ⟨2, "u"⟩] "u" "aips" "status" (.str "UPLOADED")
      = ([], ["Unable to find document with UUID u in index aips"]) := by
  decide

/-- C4 (amended): on the status/field-update path, when the identifier
lookup returns more than one matching document the single-id resolution
yields `None`, an error is logged, and the update is abandoned — no
partial-field patch is issued, exactly as in the zero-match case. -/
theorem update_field_multi_match_abandons (store : List StatusDoc)
    (uuid index field : String) (v : FieldVal)
    (hesc : escapeSlashes uuid = uuid)
    (h : 1 < (store.filter (fun d => d.uuid = uuid)).length) :
    update_field store uuid index field v
      = ([], ["Unable to find document with UUID " ++ uuid ++
              " in index " ++ index]) := by
  have hnone : document_id_from_field_query store
      (fun d => d.docId) (fun d => d.uuid) uuid = none := by
    simp only [document_id_from_field_query, document_ids_from_field_query,
      hesc, List.length_map]
    rw [if_neg (by omega)]
  simp [update_field, hnone]

/-- C4 witness: the amended behavior at a concrete two-match store. -/
theorem update_field_multi_match_abandons_witness :
    update_field [⟨1, "w"⟩, ⟨2, "w"⟩] "w" "transfers" "pending_deletion"
        (.bool true)
      = ([], ["Unable to find document with UUID w in index transfers"]) :=
  update_field_multi_match_abandons [⟨1, "w"⟩, ⟨2, "w"⟩] "w" "transfers"
    "pending_deletion" (.bool true) (by decide) (by decide)

/-- C5: when the identifier lookup resolves to zero documents, the
status/field update logs the condition and returns without raising (the
model is a total function: its result is the pair of issued update calls —
empty here — and the log), while the tag write on the same zero-match
condition raises `EmptySearchResultError`. -/
theorem zero_match_update_skips_tag_raises (store : List StatusDoc)
    (tfstore : List TransferFileDoc) (uuid index field : String)
    (v : FieldVal) (tags : List String)
    (hesc : escapeSlashes uuid = uuid)
    (h : (store.filter (fun d => d.uuid = uuid)).length = 0)
    (ht : (tfstore.filter (fun d => d.fileuuid = uuid)).length = 0) :
    update_field store uuid index field v
      = ([], ["Unable to find document with UUID " ++ uuid ++
              " in index " ++ index]) ∧
    set_file_tags tfstore uuid tags
      = .error (.emptySearchResult
          ("No matches found for file with UUID " ++ uuid)) := by
  constructor
  · have hnone : document_id_from_field_query store
        (fun d => d.docId) (fun d => d.uuid) uuid = none := by
      simp only [document_id_from_field_query, document_ids_from_field_query,
        hesc, List.length_map]
      rw [if_neg (by omega)]
    simp [update_field, hnone]
  · simp [set_file_tags, document_ids_from_field_query, hesc, ht]

/-- C5 witness: a concrete zero-match store for both paths. -/
theorem zero_match_update_skips_tag_raises_witness :
    update_field [⟨1, "x"⟩] "u" "aips" "status" (.str "UPLOADED")
      = ([], ["Unable to find document with UUID u in index aips"]) ∧
    set_file_tags [⟨1, "x", none⟩] "u" ["t"]
      = .error (.emptySearchResult "No matches found for file with UUID u") :=
  zero_match_update_skips_tag_raises [⟨1, "x"⟩] [⟨1, "x", none⟩] "u" "aips"
    "status" (.str "UPLOADED") ["t"] (by decide) (by decide) (by decide)

/-! ## `_list_files_in_dir`: the filesystem walk -/

/-- A filesystem subtree entry: a regular file, or a directory with a
readability flag and its children. -/
inductive FSNode where
  | file (name : String)
  | dir (name : String) (readable : Bool) (children : List FSNode)
deriving Repr

/-- `_list_files_in_dir(path, filepaths)`: for each entry of
`os.listdir(path)` in order, appends `os.path.join(path, file)` to
`filepaths`; if the entry is a readable directory it recurses into it before
moving to the next sibling; returns the accumulated list.  `entries` are the
children of the directory at `path`. -/
def list_files_in_dir (path : String) (entries : List FSNode)
    (filepaths : List String) : List String :=
  match entries with
  | [] => filepaths
  | .file n :: rest =>
      list_files_in_dir path rest (filepaths ++ [path ++ "/" ++ n])
  | .dir n readable cs :: rest =>
      let child_path := path ++ "/" ++ n
      let acc := filepaths ++ [child_path]
      let acc := if readable then list_files_in_dir child_path cs acc else acc
      list_files_in_dir path rest acc

/-- Two successive top-level calls of `_list_files_in_dir(path)` with the
`filepaths` argument omitted.  Python evaluates the default `filepaths=[]`
once, at function-definition time; every call that omits the argument
appends, in place, to that single shared list and returns it, so the state
left by the first call is the starting accumulator of the second. -/
def list_files_two_calls (path1 : String) (entries1 : List FSNode)
    (path2 : String) (entries2 : List FSNode) : List String × List String :=
  let firstResult := list_files_in_dir path1 entries1 []
  let secondResult := list_files_in_dir path2 entries2 firstResult
  (firstResult, secondResult)

/-- C6 (code bug): the walk is not free of shared in-process mutable state —
the mutable default argument of `_list_files_in_dir` survives across calls.
Walking `/a` (containing file `x`) and then `/b` (containing file `y`)
returns, on the second call, the entries of the first walk followed by those
of the second, not exactly the entries under the second path; a fresh
accumulator would have returned only `/b/y`. -/
theorem list_files_in_dir_shared_default_state :
    list_files_two_calls "/a" [.file "x"] "/b" [.file "y"]
      = (["/a/x"], ["/a/x", "/b/y"]) ∧
    list_files_in_dir "/b" [.file "y"] [] = ["/b/y"] ∧
    (["/a/x", "/b/y"] : List String) ≠ ["/b/y"] := by
  refine ⟨?_, ?_, ?_⟩
  · simp [list_files_two_calls, list_files_in_dir]
  · simp [list_files_in_dir]
  · simp

/-! ## UUID resolution from file IDs (`_index_aip_files`) -/

/-- Python 2 `\w` (ASCII): `[A-Za-z0-9_]`. -/
def isWordChar (c : Char) : Bool :=
  ('a' ≤ c && c ≤ 'z') || ('A' ≤ c && c ≤ 'Z') || ('0' ≤ c && c ≤ '9') || c = '_'

/-- Match exactly `n` word characters, returning them and the rest. -/
def takeWord : Nat → List Char → Option (List Char × List Char)
  | 0, cs => some ([], cs)
  | _ + 1, [] => none
  | n + 1, c :: cs =>
      if isWordChar c then
        match takeWord n cs with
        | some (m, r) => some (c :: m, r)
        | none => none
      else none

/-- Match `-?`.  `-` is not a word character, so when the next character is a
dash the regex engine must consume it (skipping it would leave `-` to be
matched by `\w`, which fails), and when it is not a dash the option matches
nothing: the greedy optional is deterministic here. -/
def optDash : List Char → List Char × List Char
  | '-' :: cs => (['-'], cs)
  | cs => ([], cs)

/-- One attempted match of `\w{8}-?\w{4}-?\w{4}-?\w{4}-?\w{12}` anchored at
the start of `cs`: the matched characters and the remaining input. -/
def matchUUIDAt (cs : List Char) : Option (List Char × List Char) := do
  let (g1, r1) ← takeWord 8 cs
  let (d1, r2) := optDash r1
  let (g2, r3) ← takeWord 4 r2
  let (d2, r4) := optDash r3
  let (g3, r5) ← takeWord 4 r4
  let (d3, r6) := optDash r5
  let (g4, r7) ← takeWord 4 r6
  let (d4, r8) := optDash r7
  let (g5, r9) ← takeWord 12 r8
  return (g1 ++ d1 ++ g2 ++ d2 ++ g3 ++ d3 ++ g4 ++ d4 ++ g5, r9)

/-- `re.findall` scan: try a match at each position left to right; on a
match, continue after its end.  The fuel argument bounds the number of scan
steps; every step consumes at least one character, so fuel equal to the
input length is sufficient. -/
def findAllUUIDs : Nat → List Char → List String
  | 0, _ => []
  | _ + 1, [] => []
  | fuel + 1, c :: cs =>
      match matchUUIDAt (c :: cs) with
      | some (m, rest) => String.mk m :: findAllUUIDs fuel rest
      | none => findAllUUIDs fuel cs

/-- `re.findall(r'\w{8}-?\w{4}-?\w{4}-?\w{4}-?\w{12}', s)`. -/
def findUUIDs (s : String) : List String :=
  findAllUUIDs s.length s.toList

/-- The `ADMID is None` branch of `_index_aip_files`: collect the UUID-shaped
substrings of the file entry's `ID` attribute; if they are all identical
(`len(set(uuids)) == 1`) use that UUID, otherwise leave the identifier
unset. -/
def fileUUIDFromID (idAttr : String) : Option String :=
  let uuids := findUUIDs idAttr
  if uuids.dedup.length = 1 then uuids.head? else none

theorem dedup_of_all_eq [DecidableEq α] (u : α) :
    ∀ l : List α, l ≠ [] → (∀ v ∈ l, v = u) → l.dedup = [u]
  | [x], _, h => by
      have := h x (by simp)
      simp [this]
  | x :: y :: t, _, h => by
      have hx : x = u := h x (by simp)
      have hy : y = u := h y (by simp)
      have ht : (y :: t).dedup = [u] :=
        dedup_of_all_eq u (y :: t) (by simp) (fun v hv => h v (by simp [hv]))
      have hmem : x ∈ y :: t := by simp [hx, hy]
      rw [List.dedup_cons_of_mem hmem, ht]

/-- C9: for a manifest file entry without an administrative-metadata
reference, when every UUID-shaped substring found in the entry's `ID`
attribute is the same UUID `u`, the resolved identifier is `u`; when none
are found, or at least two distinct ones are, the identifier is left
unset. -/
theorem file_uuid_resolution (s : String) :
    (∀ u, findUUIDs s ≠ [] → (∀ v ∈ findUUIDs s, v = u) →
        fileUUIDFromID s = some u) ∧
    ((findUUIDs s = [] ∨ ∃ a ∈ findUUIDs s, ∃ b ∈ findUUIDs s, a ≠ b) →
        fileUUIDFromID s = none) := by
  constructor
  · intro u hne hall
    have hd : (findUUIDs s).dedup = [u] := dedup_of_all_eq u _ hne hall
    obtain ⟨v, rest, hfind⟩ : ∃ v rest, findUUIDs s = v :: rest := by
      cases hcl : findUUIDs s with
      | nil => exact absurd hcl hne
      | cons v rest => exact ⟨v, rest, rfl⟩
    have hv : v = u := hall v (by rw [hfind]; simp)
    subst hv
    have hd1 : (v :: rest).dedup = [v] := by rw [← hfind]; exact hd
    simp [fileUUIDFromID, hfind, hd1]
  · intro h
    cases h with
    | inl hempty => simp [fileUUIDFromID, hempty]
    | inr hdistinct =>
      obtain ⟨a, ha, b, hb, hab⟩ := hdistinct
      have hne1 : ¬ (findUUIDs s).dedup.length = 1 := by
        intro hlen
        obtain ⟨x, hx⟩ := List.length_eq_one.mp hlen
        have ha' : a ∈ (findUUIDs s).dedup := List.mem_dedup.mpr ha
        have hb' : b ∈ (findUUIDs s).dedup := List.mem_dedup.mpr hb
        rw [hx] at ha' hb'
        simp at ha' hb'
        exact hab (ha'.trans hb'.symm)
      simp [fileUUIDFromID, hne1]

/-- C9 witness: a file ID whose two UUID-shaped substrings are identical
resolves to that UUID; a file ID with two distinct UUID-shaped substrings
resolves to an unset identifier. -/
theorem file_uuid_resolution_witness :
    fileUUIDFromID
        "file-ab12cd34-ef56-ab78-cd90-ab12cd34ef56-ab12cd34-ef56-ab78-cd90-ab12cd34ef56"
      = some "ab12cd34-ef56-ab78-cd90-ab12cd34ef56" ∧
    fileUUIDFromID
        "file-ab12cd34-ef56-ab78-cd90-ab12cd34ef56-99999999-9999-9999-9999-999999999999"
      = none := by
  constructor
  · exact (file_uuid_resolution
      "file-ab12cd34-ef56-ab78-cd90-ab12cd34ef56-ab12cd34-ef56-ab78-cd90-ab12cd34ef56").1
      "ab12cd34-ef56-ab78-cd90-ab12cd34ef56" (by decide) (by decide)
  · exact (file_uuid_resolution
      "file-ab12cd34-ef56-ab78-cd90-ab12cd34ef56-99999999-9999-9999-9999-999999999999").2
      (Or.inr ⟨"ab12cd34-ef56-ab78-cd90-ab12cd34ef56", by decide,
        "99999999-9999-9999-9999-999999999999", by decide, by decide⟩)

/-! ## Top-level indexing entry points -/

/-- The Dublin Core metadata section found (or not) at
`mets:dmdSec/mets:mdWrap/mets:xmlData/dcterms:dublincore`, reduced to the
five `findtext` results the indexing code reads. -/
structure Dublincore where
  dcType : Option String
  dctermsType : Option String
  dcIdentifier : Option String
  dctermsIdentifier : Option String
  isPartOf : Option String
deriving Repr, DecidableEq

/-- A `mets:file` entry from a `fileGrp` with `USE='original'` or
`USE='metadata'`: its `ADMID` attribute (absent for metadata files), its `ID`
attribute, and its `FLocat` `xlink:href`. -/
structure FileEntry where
  admid : Option String
  idAttr : String
  href : String
deriving Repr, DecidableEq

/-- The parts of a parsed METS document read by the indexing entry points.
`amdSecs` maps an `amdSec` `ID` to the `findtext` result for its
`objectIdentifierValue` (the technical-metadata file UUID).  The raw-XML
payloads (the normalized `mets`/`dmdSec`/`amdSec` dumps), which are covered
separately by the normalizer model, are not repeated here. -/
structure MetsDoc where
  dublincore : Option Dublincore
  files : List FileEntry
  amdSecs : List (String × Option String)
deriving Repr, DecidableEq

/-- Python `a or b` on `findtext` results: `None` and `''` are falsy. -/
def pyOr (a b : Option String) : Option String :=
  match a with
  | some s => if s = "" then b else some s
  | none => b

/-- Python `size or os.path.getsize(path)`: `None` and `0` are falsy, so a
missing or zero supplied size falls back to the filesystem-derived byte
count.  Byte counts and true division are modelled over `ℚ`. -/
def sizeOrGetsize (size : Option ℚ) (fsSize : ℚ) : ℚ :=
  match size with
  | some s => if s = 0 then fsSize else s
  | none => fsSize

/-- The `aip_data` document assembled by `index_aip_and_files` (time-valued
and raw-XML-valued fields aside). -/
structure AipDoc where
  uuid : String
  name : String
  filePath : String
  size : ℚ
  AICID : Option String
  isPartOf : Option String
  countAIPsinAIC : Option Nat
  identifiers : List String
  encrypted : Bool
deriving Repr, DecidableEq

/-- One `indexData` document assembled per file by `_index_aip_files`
(time-valued and raw-XML-valued fields aside). -/
structure AipFileDoc where
  AIPUUID : String
  sipName : String
  FILEUUID : Option String
  filePath : String
  isPartOf : Option String
  AICID : Option String
  identifiers : List String
deriving Repr, DecidableEq

/-- The `transfer_data` document assembled by `index_transfer_and_files`. -/
structure TransferDoc where
  name : String
  status : String
  file_count : Nat
  uuid : String
  pending_deletion : Bool
deriving Repr, DecidableEq

/-- A successful write issued through `_try_to_index`, tagged by target
index. -/
inductive ESWrite where
  | aip (doc : AipDoc)
  | aipFile (doc : AipFileDoc)
  | transfer (doc : TransferDoc)
  | transferFile (relativePath fileuuid : String)
deriving Repr, DecidableEq

/-- Result of a top-level indexing call: the Python return value, the
sequence of documents written to the store, and the error messages
logged/printed on the failure path. -/
structure IndexCallResult where
  ret : Nat
  writes : List ESWrite
  errors : List String
deriving Repr, DecidableEq

/-- The collection-marker extraction of `index_aip_and_files` (lines
373-380): `aic_identifier` is set only for type `Archival Information
Collection`; `is_part_of` is read whenever the Dublin Core section is
present. -/
def aipCollectionMarkers (dublincore : Option Dublincore) :
    Option String × Option String :=
  match dublincore with
  | none => (none, none)
  | some dc =>
      let aip_type := pyOr dc.dcType dc.dctermsType
      let aic_identifier :=
        if aip_type = some "Archival Information Collection"
        then pyOr dc.dcIdentifier dc.dctermsIdentifier else none
      (aic_identifier, dc.isPartOf)

/-- The `aip_data` dict of `index_aip_and_files` (lines 398-412). -/
def aip_data (uuid name path : String) (size : Option ℚ) (fsSize : ℚ)
    (aips_in_aic : Option Nat) (identifiers : List String) (encrypted : Bool)
    (mets : MetsDoc) : AipDoc :=
  let (aic_identifier, is_part_of) := aipCollectionMarkers mets.dublincore
  { uuid := uuid, name := name, filePath := path,
    size := sizeOrGetsize size fsSize / 1024 / 1024,
    AICID := aic_identifier, isPartOf := is_part_of,
    countAIPsinAIC := aips_in_aic, identifiers := identifiers,
    encrypted := encrypted }

/-- `_index_aip_files`: the SIP-wide Dublin Core markers (here
`is_part_of` only for type `Archival Information Package`, lines 458-466),
then one document per file entry; a file's UUID comes from the `amdSec` it
references, or from the UUID-shaped substrings of its `ID` attribute when it
has no `ADMID`.  Returns the documents written and `len(files)`. -/
def index_aip_files (uuid : String) (mets : MetsDoc) (name : String)
    (identifiers : List String) : List AipFileDoc × Nat :=
  let dc := mets.dublincore
  let markers : Option String × Option String :=
    match dc with
    | none => (none, none)
    | some dc =>
        let aip_type := pyOr dc.dcType dc.dctermsType
        if aip_type = some "Archival Information Collection" then
          (pyOr dc.dcIdentifier dc.dctermsIdentifier, none)
        else if aip_type = some "Archival Information Package" then
          (none, dc.isPartOf)
        else (none, none)
  let docs := mets.files.map (fun f =>
    let fileUUID : Option String :=
      match f.admid with
      | none => fileUUIDFromID f.idAttr
      | some admID => ((mets.amdSecs.lookup admID).getD none)
    { AIPUUID := uuid, sipName := name, FILEUUID := fileUUID,
      filePath := f.href, isPartOf := markers.2, AICID := markers.1,
      identifiers := identifiers })
  (docs, mets.files.length)

/-- `index_aip_and_files(client, uuid, path, mets_path, name, size, ...)`:
aborts with return value 1, an error logged and printed, and no writes, when
the AIP path or the METS path does not exist (when both are missing the METS
message wins, since it is assigned last); otherwise writes the AIP document
followed by one document per METS file entry and returns 0. -/
def index_aip_and_files (uuid path mets_path name : String)
    (pathExists metsPathExists : Bool) (size : Option ℚ) (fsSize : ℚ)
    (aips_in_aic : Option Nat) (identifiers : List String) (encrypted : Bool)
    (mets : MetsDoc) : IndexCallResult :=
  let error_message : Option String :=
    if !metsPathExists then some ("METS file does not exist at: " ++ mets_path)
    else if !pathExists then some ("AIP does not exist at: " ++ path)
    else none
  match error_message with
  | some msg => { ret := 1, writes := [], errors := [msg] }
  | none =>
      let doc := aip_data uuid name path size fsSize aips_in_aic identifiers
        encrypted mets
      let (fileDocs, _) := index_aip_files uuid mets name identifiers
      { ret := 0,
        writes := .aip doc :: fileDocs.map .aipFile,
        errors := [] }

/-- `index_transfer_and_files(client, uuid, path, status)`: aborts with
return value 1, an error logged and printed, and no writes, when the
transfer path does not exist; otherwise indexes the transfer files (the
`_index_transfer_files` walk is represented by its observable result: one
write per indexed file, passed in as `fileWrites`), then writes the transfer
document and returns 0.  `transferName` is the relational lookup result
(`None` models `Transfer.DoesNotExist`, degrading to an empty name). -/
def index_transfer_and_files (uuid path : String) (pathExists : Bool)
    (status : String) (fileWrites : List (String × String))
    (transferName : Option String) : IndexCallResult :=
  if !pathExists then
    { ret := 1, writes := [],
      errors := ["Transfer does not exist at: " ++ path] }
  else
    let files_indexed := fileWrites.length
    let transfer_data : TransferDoc :=
      { name := transferName.getD "", status := status,
        file_count := files_indexed, uuid := uuid,
        pending_deletion := false }
    { ret := 0,
      writes := fileWrites.map (fun w => .transferFile w.1 w.2)
        ++ [.transfer transfer_data],
      errors := [] }

/-- C7: each top-level indexing call returns 1, logs/prints an error
message, and performs no write at all when the required package path (or,
for AIPs, the METS path) does not exist; when the preconditions hold and
indexing completes, it returns 0. -/
theorem index_entry_points_return_convention
    (uuid path mets_path name : String) (pathExists metsPathExists : Bool)
    (size : Option ℚ) (fsSize : ℚ) (aips_in_aic : Option Nat)
    (identifiers : List String) (encrypted : Bool) (mets : MetsDoc)
    (tuuid tpath status : String) (tPathExists : Bool)
    (fileWrites : List (String × String)) (transferName : Option String) :
    (pathExists = false ∨ metsPathExists = false →
      (index_aip_and_files uuid path mets_path name pathExists metsPathExists
          size fsSize aips_in_aic identifiers encrypted mets).ret = 1 ∧
      (index_aip_and_files uuid path mets_path name pathExists metsPathExists
          size fsSize aips_in_aic identifiers encrypted mets).writes = [] ∧
      (index_aip_and_files uuid path mets_path name pathExists metsPathExists
          size fsSize aips_in_aic identifiers encrypted mets).errors ≠ []) ∧
    (pathExists = true → metsPathExists = true →
      (index_aip_and_files uuid path mets_path name pathExists metsPathExists
          size fsSize aips_in_aic identifiers encrypted mets).ret = 0) ∧
    (tPathExists = false →
      (index_transfer_and_files tuuid tpath tPathExists status fileWrites
          transferName).ret = 1 ∧
      (index_transfer_and_files tuuid tpath tPathExists status fileWrites
          transferName).writes = [] ∧
      (index_transfer_and_files tuuid tpath tPathExists status fileWrites
          transferName).errors ≠ []) ∧
    (tPathExists = true →
      (index_transfer_and_files tuuid tpath tPathExists status fileWrites
          transferName).ret = 0) := by
  refine ⟨?_, ?_, ?_, ?_⟩
  · rintro (h | h) <;> subst h
    · cases metsPathExists <;> simp [index_aip_and_files]
    · simp [index_aip_and_files]
  · intro h1 h2; subst h1; subst h2
    simp [index_aip_and_files]
  · intro h; subst h
    simp [index_transfer_and_files]
  · intro h; subst h
    simp [index_transfer_and_files]

/-- C7 witness: concrete calls exercising each branch: missing AIP path,
missing METS path, successful AIP indexing, missing transfer path,
successful transfer indexing. -/
theorem index_entry_points_return_convention_witness :
    ((index_aip_and_files "u" "/p" "/m" "n" false true none 0 none [] false
        ⟨none, [], []⟩).ret = 1 ∧
     (index_aip_and_files "u" "/p" "/m" "n" false true none 0 none [] false
        ⟨none, [], []⟩).writes = [] ∧
     (index_aip_and_files "u" "/p" "/m" "n" false true none 0 none [] false
        ⟨none, [], []⟩).errors ≠ []) ∧
    (index_aip_and_files "u" "/p" "/m" "n" true true (some 1024) 0 none []
        false ⟨none, [], []⟩).ret = 0 ∧
    ((index_transfer_and_files "t" "/q" false "backlog" [] none).ret = 1 ∧
     (index_transfer_and_files "t" "/q" false "backlog" [] none).writes = [] ∧
     (index_transfer_and_files "t" "/q" false "backlog" [] none).errors ≠ []) ∧
    (index_transfer_and_files "t" "/q" true "backlog" [("objects/a.txt", "f1")]
        (some "nm")).ret = 0 := by
  refine ⟨?_, ?_, ?_, ?_⟩
  · exact (index_entry_points_return_convention "u" "/p" "/m" "n" false true
      none 0 none [] false ⟨none, [], []⟩ "t" "/q" "backlog" true []
      none).1 (Or.inl rfl)
  · exact (index_entry_points_return_convention "u" "/p" "/m" "n" true true
      (some 1024) 0 none [] false ⟨none, [], []⟩ "t" "/q" "backlog" true []
      none).2.1 rfl rfl
  · exact (index_entry_points_return_convention "u" "/p" "/m" "n" true true
      none 0 none [] false ⟨none, [], []⟩ "t" "/q" "backlog" false []
      none).2.2.1 rfl
  · exact (index_entry_points_return_convention "u" "/p" "/m" "n" true true
      none 0 none [] false ⟨none, [], []⟩ "t" "/q" "backlog" true
      [("objects/a.txt", "f1")] (some "nm")).2.2.2 rfl

/-- C8: indexing an AIP whose METS manifest has no Dublin Core collection
metadata section produces an AIP document with a null collection identifier
(`AICID`) and a null parent reference (`isPartOf`), and a size equal to the
supplied-or-filesystem-derived byte count divided by 1024 and again by 1024
— exact division over `ℚ` (megabytes).  The AIP document is the first write
of the call. -/
theorem aip_doc_no_collection_metadata
    (uuid path mets_path name : String) (size : Option ℚ) (fsSize : ℚ)
    (aips_in_aic : Option Nat) (identifiers : List String) (encrypted : Bool)
    (mets : MetsDoc) (hdc : mets.dublincore = none) :
    (aip_data uuid name path size fsSize aips_in_aic identifiers encrypted
        mets).AICID = none ∧
    (aip_data uuid name path size fsSize aips_in_aic identifiers encrypted
        mets).isPartOf = none ∧
    (aip_data uuid name path size fsSize aips_in_aic identifiers encrypted
        mets).size = sizeOrGetsize size fsSize / 1024 / 1024 ∧
    (aip_data uuid name path size fsSize aips_in_aic identifiers encrypted
        mets).size * (1024 * 1024) = sizeOrGetsize size fsSize ∧
    (index_aip_and_files uuid path mets_path name true true size fsSize
        aips_in_aic identifiers encrypted mets).writes.head?
      = some (.aip (aip_data uuid name path size fsSize aips_in_aic
          identifiers encrypted mets)) := by
  refine ⟨?_, ?_, ?_, ?_, ?_⟩
  · simp [aip_data, aipCollectionMarkers, hdc]
  · simp [aip_data, aipCollectionMarkers, hdc]
  · simp [aip_data]
  · show sizeOrGetsize size fsSize / 1024 / 1024 * (1024 * 1024)
        = sizeOrGetsize size fsSize
    rw [div_div, div_mul_cancel₀]
    norm_num
  · simp [index_aip_and_files]

/-- C8 witness: a 2 MiB AIP (2097152 supplied bytes) with no Dublin Core
section indexes with null `AICID`, null `isPartOf`, and an exact size of 2
megabytes, as the first write of the call. -/
theorem aip_doc_no_collection_metadata_witness :
    (aip_data "u" "n" "/p" (some 2097152) 0 none [] false
        ⟨none, [], []⟩).AICID = none ∧
    (aip_data "u" "n" "/p" (some 2097152) 0 none [] false
        ⟨none, [], []⟩).isPartOf = none ∧
    (aip_data "u" "n" "/p" (some 2097152) 0 none [] false
        ⟨none, [], []⟩).size = 2 ∧
    (index_aip_and_files "u" "/p" "/m" "n" true true (some 2097152) 0 none []
        false ⟨none, [], []⟩).writes.head?
      = some (.aip (aip_data "u" "n" "/p" (some 2097152) 0 none [] false
          ⟨none, [], []⟩)) := by
  have h := aip_doc_no_collection_metadata "u" "/p" "/m" "n" (some 2097152) 0
    none [] false ⟨none, [], []⟩ rfl
  refine ⟨h.1, h.2.1, ?_, h.2.2.2.2⟩
  have hs := h.2.2.1
  rw [hs]
  norm_num [sizeOrGetsize]
